import Mathlib

/-!
Verification of the KerasNLP model-upload guide
(`guides/ipynb/keras_nlp/upload.ipynb`).

The guide is a straight-line notebook: it loads the IMDB reviews dataset,
fine-tunes a causal language model and later a classifier, saves each to a
local preset directory, authenticates with Kaggle and Hugging Face, and
uploads the presets.  We embed the notebook as

* a dataset-pipeline syntax `DS` for the `tf.data` expressions the notebook
  builds (`tfds.load` with `batch_size=4`, `.take(100)`,
  `.map(lambda x, y: x)`), together with list-based semantics `denote`;
* an `Event` trace type, one event per executed library call / notebook
  cell, and `script`, the exact sequence of events a complete run performs,
  parameterised by which credential environment variables are set and by
  the usernames the two hubs report via `whoami`;
* a fail-stop runner `runWith` used to state that the notebook adds no
  error handling of its own.

The markdown cells at the end of the guide that show reloading from the
hubs are documentation only (they are not code cells), so they do not
appear in the trace.
-/

/-- Batching as performed by `tfds.load(..., batch_size=n)` (modelled from
the documented `tf.data` semantics: consecutive chunks of `n` elements, the
last chunk possibly shorter).  Fuel-based so that it reduces by `rfl`. -/
def chunkAux (n : Nat) : Nat → List α → List (List α)
  | 0, _ => []
  | _ + 1, [] => []
  | fuel + 1, x :: xs => (x :: xs.take (n - 1)) :: chunkAux n fuel (xs.drop (n - 1))

/-- Split a list into consecutive batches of size `n`. -/
def chunk (n : Nat) (l : List α) : List (List α) := chunkAux n l.length l

/-- An element of a dataset batch: a supervised `(text, label)` example, or
a bare text once labels have been dropped. -/
inductive Elem where
  | labeled (text : String) (label : Nat)
  | plain (text : String)
deriving DecidableEq

/-- The function applied batchwise by `imdb_train.map(lambda x, y: x)`:
keep the review text, drop the label. -/
def dropLabel : Elem → Elem
  | .labeled t _ => .plain t
  | .plain t => .plain t

/-- The shapes of `tf.data` pipeline the notebook constructs. -/
inductive DS where
  | source (name split : String) (asSupervised : Bool) (batchSize : Nat)
  | take (n : Nat) (d : DS)
  | mapFst (d : DS)
deriving DecidableEq

/-- Whether a pipeline still yields supervised `(text, label)` pairs. -/
def DS.supervised : DS → Bool
  | .source _ _ s _ => s
  | .take _ d => d.supervised
  | .mapFst _ => false

/-- Whether a pipeline contains a truncating `take` node. -/
def DS.truncated : DS → Bool
  | .source _ _ _ _ => false
  | .take _ _ => true
  | .mapFst d => d.truncated

/-- Semantics of a pipeline, given the raw examples of each split
(modelled from the documented `tf.data` semantics of `batch`, `take` and
`map`; `as_supervised=True` yields `(text, label)` pairs). -/
def denote (raw : String → List (String × Nat)) : DS → List (List Elem)
  | .source _ split _ b => chunk b ((raw split).map fun p => Elem.labeled p.1 p.2)
  | .take n d => (denote raw d).take n
  | .mapFst d => (denote raw d).map (List.map dropLabel)

/-- Cell "imdb_train, imdb_test = tfds.load(...)": the train split, batched
with `batch_size=4`, before any truncation. -/
def imdb_train_full : DS := .source "imdb_reviews" "train" true 4

/-- The test split returned by `tfds.load`; the notebook never modifies it. -/
def imdb_test : DS := .source "imdb_reviews" "test" true 4

/-- Cell "imdb_train = imdb_train.take(100)". -/
def imdb_train : DS := .take 100 imdb_train_full

/-- Cell "imdb_train_reviews = imdb_train.map(lambda x, y: x)". -/
def imdb_train_reviews : DS := .mapFst imdb_train

/-- Cell "preset_dir = \x22./gpt2_imdb\x22". -/
def preset_dir : String := "./gpt2_imdb"

/-- The second value assigned to `preset_dir`, in the classifier cell. -/
def bert_preset_dir : String := "./bert_tiny_imdb"

/-- Cell "kaggle_uri = f\x22kaggle://.../gpt2/keras/gpt2_imdb\x22". -/
def kaggle_uri (kaggle_username : String) : String :=
  "kaggle://" ++ (kaggle_username ++ "/gpt2/keras/gpt2_imdb")

/-- Cell "hf_uri = f\x22hf://.../gpt2_imdb\x22". -/
def hf_uri (hf_username : String) : String :=
  "hf://" ++ (hf_username ++ "/gpt2_imdb")

/-- The URI of the classifier upload in the last code cell. -/
def bert_kaggle_uri (kaggle_username : String) : String :=
  "kaggle://" ++ (kaggle_username ++ "/bert/keras/bert_tiny_imdb")

/-- Which credential environment variables are present in `os.environ`
when the notebook runs. -/
structure Environ where
  kaggleUsername : Bool
  kaggleKey : Bool
  hfUsername : Bool
  hfToken : Bool
deriving DecidableEq

/-- The usernames the two hub clients report for the authenticated user:
`kagglehub.whoami()["username"]` and `huggingface_hub.whoami()["name"]`. -/
structure Hub where
  kaggleUser : String
  hfUser : String
deriving DecidableEq

/-- One event per library call executed by the notebook. -/
inductive Event where
  | loadDataset (name : String) (splits : List String) (asSupervised : Bool) (batchSize : Nat)
  | fromPreset (cls preset : String) (numClasses : Option Nat)
  | fit (model : String) (data : DS)
  | saveToPreset (model dir : String)
  | listDir (dir : String)
  | kaggleAuth (login : Bool)
  | hfAuth (login : Bool)
  | kaggleWhoami (username : String)
  | hfWhoami (name : String)
  | uploadPreset (uri dir : String)
deriving DecidableEq

/-- The full event trace of one complete run of the notebook, in cell
order.  The `kaggleAuth` / `hfAuth` events model the "make sure we are
logged in" cells; their flag records whether the interactive login
(`kagglehub.login()` / `huggingface_hub.notebook_login()`) is invoked,
which the cells decide by `"KAGGLE_USERNAME" not in os.environ or
"KAGGLE_KEY" not in os.environ` (resp. `HF_USERNAME` / `HF_TOKEN`). -/
def script (env : Environ) (hub : Hub) : List Event :=
  [ .loadDataset "imdb_reviews" ["train", "test"] true 4,
    .fromPreset "CausalLM" "gpt2_base_en" none,
    .fit "causal_lm" imdb_train_reviews,
    .saveToPreset "causal_lm" preset_dir,
    .listDir preset_dir,
    .fromPreset "CausalLM" preset_dir none,
    .fromPreset "Backbone" preset_dir none,
    .fromPreset "Tokenizer" preset_dir none,
    .kaggleAuth (!env.kaggleUsername || !env.kaggleKey),
    .kaggleWhoami hub.kaggleUser,
    .uploadPreset (kaggle_uri hub.kaggleUser) preset_dir,
    .hfAuth (!env.hfUsername || !env.hfToken),
    .hfWhoami hub.hfUser,
    .uploadPreset (hf_uri hub.hfUser) preset_dir,
    .fromPreset "Classifier" "bert_tiny_en_uncased" (some 2),
    .fit "classifier" imdb_train,
    .saveToPreset "classifier" bert_preset_dir,
    .uploadPreset (bert_kaggle_uri hub.kaggleUser) bert_preset_dir ]

/-- Classify an event by phase, for stating ordering properties:
0 = dataset load, 1 = model instantiation from a built-in preset,
2 = reload from the local preset directory, 3 = fit, 4 = save_to_preset,
5 = listing the preset directory, 6 = Kaggle authentication step,
7 = Hugging Face authentication step, 8 = kagglehub whoami,
9 = huggingface_hub whoami, 10 = upload_preset. -/
def code : Event → Nat
  | .loadDataset _ _ _ _ => 0
  | .fromPreset _ p _ => if p == "gpt2_base_en" || p == "bert_tiny_en_uncased" then 1 else 2
  | .fit _ _ => 3
  | .saveToPreset _ _ => 4
  | .listDir _ => 5
  | .kaggleAuth _ => 6
  | .hfAuth _ => 7
  | .kaggleWhoami _ => 8
  | .hfWhoami _ => 9
  | .uploadPreset _ _ => 10

theorem script_codes (env : Environ) (hub : Hub) :
    (script env hub).map code = [0, 1, 3, 4, 5, 2, 2, 2, 6, 8, 10, 7, 9, 10, 1, 3, 4, 10] := rfl

/-- Every position satisfying `p` comes strictly before every position
satisfying `q`. -/
def beforeAll (p q : Nat → Bool) (ks : List Nat) : Prop :=
  ∀ i j : Fin ks.length, p (ks.get i) = true → q (ks.get j) = true → i.val < j.val

instance (p q : Nat → Bool) (ks : List Nat) : Decidable (beforeAll p q ks) := by
  unfold beforeAll
  infer_instance

/-- The phase-ordering asserted by the specification for one complete run,
stated over the phase codes of the trace: load, instantiate, fit, save,
authenticate and upload first occur in that order, every upload comes
before every reload ("reloading comes last"), and no reload falls between
a save and an upload. -/
def fixedLinearOrder (ks : List Nat) : Prop :=
  ks.findIdx (· == 0) < ks.findIdx (· == 1) ∧
  ks.findIdx (· == 1) < ks.findIdx (· == 3) ∧
  ks.findIdx (· == 3) < ks.findIdx (· == 4) ∧
  ks.findIdx (· == 4) < ks.findIdx (fun k => k == 6 || k == 7) ∧
  ks.findIdx (fun k => k == 6 || k == 7) < ks.findIdx (· == 10) ∧
  beforeAll (· == 10) (· == 2) ks ∧
  ∀ i j k : Fin ks.length,
    ks.get i = 4 → ks.get j = 2 → ks.get k = 10 → ¬(i.val < j.val ∧ j.val < k.val)

instance (ks : List Nat) : Decidable (fixedLinearOrder ks) := by
  unfold fixedLinearOrder
  infer_instance

/-- How many of the two hubs have their authentication step performed in a
trace. -/
def authHubs (tr : List Event) : Nat :=
  (if tr.any fun e => match e with | .kaggleAuth _ => true | _ => false then 1 else 0) +
  (if tr.any fun e => match e with | .hfAuth _ => true | _ => false then 1 else 0)

/-- Whether every dataset handed to a `fit` call still carries labels. -/
def fitsSupervised (tr : List Event) : Bool :=
  tr.all fun e => match e with
    | .fit _ d => d.supervised
    | _ => true

/-- Scan a trace, carrying the list of directories already written by
`save_to_preset`; `true` iff every `upload_preset` call names a directory
that was saved earlier in the trace. -/
def uploadsSaved : List Event → List String → Bool
  | [], _ => true
  | .saveToPreset _ d :: tr, saved => uploadsSaved tr (d :: saved)
  | .uploadPreset _ d :: tr, saved => saved.contains d && uploadsSaved tr saved
  | _ :: tr, saved => uploadsSaved tr saved

/-- Run the notebook's calls in order against an oracle `f` that says
whether each library call succeeds or raises: execution stops at the first
raised error, which surfaces unchanged, together with the calls completed
before it.  The notebook itself contains no `try`/`except`, so this is the
whole of its error behaviour. -/
def runWith (f : Event → Except ε Unit) : List Event → List Event × Option ε
  | [] => ([], none)
  | e :: tr =>
    match f e with
    | .error err => ([], some err)
    | .ok _ =>
      let r := runWith f tr
      (e :: r.1, r.2)

theorem runWith_all_ok (f : Event → Except ε Unit) :
    ∀ tr : List Event, (∀ x ∈ tr, f x = .ok ()) → runWith f tr = (tr, none) := by
  intro tr
  induction tr with
  | nil => intro _; rfl
  | cons e tr ih =>
    intro h
    have he : f e = .ok () := h e (List.mem_cons_self e tr)
    have ht : runWith f tr = (tr, none) := ih fun x hx => h x (List.mem_cons_of_mem e hx)
    simp [runWith, he, ht]

theorem runWith_error_at (f : Event → Except ε Unit) (err : ε) :
    ∀ (t1 : List Event) (e : Event) (t2 : List Event),
      (∀ x ∈ t1, f x = .ok ()) → f e = .error err →
      runWith f (t1 ++ e :: t2) = (t1, some err) := by
  intro t1
  induction t1 with
  | nil =>
    intro e t2 _ he
    simp [runWith, he]
  | cons x t1 ih =>
    intro e t2 h he
    have hx : f x = .ok () := h x (List.mem_cons_self x t1)
    have ht := ih e t2 (fun y hy => h y (List.mem_cons_of_mem x hy)) he
    simp [runWith, hx, ht]

theorem chunkAux_flatten (n : Nat) :
    ∀ (fuel : Nat) (l : List α), l.length ≤ fuel → (chunkAux n fuel l).flatten = l := by
  intro fuel
  induction fuel with
  | zero =>
    intro l hl
    have : l = [] := List.eq_nil_of_length_eq_zero (Nat.le_zero.1 hl)
    subst this
    rfl
  | succ fuel ih =>
    intro l hl
    cases l with
    | nil => rfl
    | cons x xs =>
      have hdrop : (xs.drop (n - 1)).length ≤ fuel := by
        rw [List.length_drop]
        have : xs.length ≤ fuel := by simpa using hl
        omega
      calc (chunkAux n (fuel + 1) (x :: xs)).flatten
          = (x :: xs.take (n - 1)) ++ (chunkAux n fuel (xs.drop (n - 1))).flatten := by
            simp [chunkAux]
        _ = x :: (xs.take (n - 1) ++ xs.drop (n - 1)) := by rw [ih _ hdrop]; simp
        _ = x :: xs := by rw [List.take_append_drop]

/-- Batching of size `n` merely regroups the data: flattening the batches
recovers the original list. -/
theorem chunk_flatten (n : Nat) (l : List α) : (chunk n l).flatten = l :=
  chunkAux_flatten n l.length l (Nat.le_refl _)

theorem chunkAux_mem_length (n : Nat) (hn : 0 < n) :
    ∀ (fuel : Nat) (l : List α), ∀ b ∈ chunkAux n fuel l, b.length ≤ n := by
  intro fuel
  induction fuel with
  | zero => intro l b hb; simp [chunkAux] at hb
  | succ fuel ih =>
    intro l b hb
    cases l with
    | nil => simp [chunkAux] at hb
    | cons x xs =>
      simp only [chunkAux, List.mem_cons] at hb
      rcases hb with hb | hb
      · subst hb
        simp only [List.length_cons, List.length_take]
        omega
      · exact ih _ b hb

/-- Every batch produced by batching with size `n > 0` has at most `n`
elements. -/
theorem chunk_mem_length (n : Nat) (hn : 0 < n) (l : List α) :
    ∀ b ∈ chunk n l, b.length ≤ n :=
  chunkAux_mem_length n hn l.length l

theorem kaggle_ne_hf (x y : String) : "kaggle://" ++ x ≠ "hf://" ++ y := by
  intro h
  have hd := congrArg String.data h
  rw [String.data_append, String.data_append] at hd
  have e1 : "kaggle://".data = ['k', 'a', 'g', 'g', 'l', 'e', ':', '/', '/'] := rfl
  have e2 : "hf://".data = ['h', 'f', ':', '/', '/'] := rfl
  rw [e1, e2] at hd
  simp only [List.cons_append, List.cons.injEq] at hd
  exact absurd hd.1 (by decide)

theorem hf_ne_kaggle (x y : String) : "hf://" ++ x ≠ "kaggle://" ++ y :=
  fun h => kaggle_ne_hf y x h.symm

/-! ## The preset save/load interface

Modelled from the spec: the `save_to_preset` / `from_preset` interface of
the external `keras_nlp` library is not part of this repository (the
notebook only calls it).  Following the spec's description — "load/save a
named model configuration and weights to/from a directory" — and the
guide's own words ("What you save in, is what you get back out"; the
objects loaded from the preset directory "are equivalent to
`causal_lm.backbone` and `causal_lm.preprocessor.tokenizer`"), a preset
directory stores the task's backbone (configuration and weights) and its
tokenizer, and the loaders read those components back. -/

/-- Modelled from the spec: a `keras_nlp.models.Backbone` — the model's
configuration and weights. -/
structure Backbone where
  config : String
  weights : List Int
deriving DecidableEq

/-- Modelled from the spec: a `keras_nlp.models.Tokenizer`. -/
structure Tokenizer where
  vocab : List String
deriving DecidableEq

/-- Modelled from the spec: a `keras_nlp.models.Preprocessor`, wrapping a
tokenizer. -/
structure Preprocessor where
  tokenizer : Tokenizer
deriving DecidableEq

/-- Modelled from the spec: a `keras_nlp.models.CausalLM` task, wrapping a
backbone and a preprocessor. -/
structure CausalLM where
  backbone : Backbone
  preprocessor : Preprocessor
deriving DecidableEq

/-- Modelled from the spec: the contents of a local preset directory
written by `save_to_preset`. -/
structure PresetDir where
  backbone : Backbone
  tokenizer : Tokenizer
deriving DecidableEq

/-- Modelled from the spec: `causal_lm.save_to_preset(preset_dir)` writes
the task's configuration, weights and tokenizer to the directory. -/
def save_to_preset (m : CausalLM) : PresetDir :=
  ⟨m.backbone, m.preprocessor.tokenizer⟩

/-- Modelled from the spec: `keras_nlp.models.CausalLM.from_preset` on a
local preset directory. -/
def CausalLM.from_preset (p : PresetDir) : CausalLM :=
  ⟨p.backbone, ⟨p.tokenizer⟩⟩

/-- Modelled from the spec: `keras_nlp.models.Backbone.from_preset`. -/
def Backbone.from_preset (p : PresetDir) : Backbone := p.backbone

/-- Modelled from the spec: `keras_nlp.models.Tokenizer.from_preset`. -/
def Tokenizer.from_preset (p : PresetDir) : Tokenizer := p.tokenizer

/-! ## Concrete instances used by witnesses and counterexamples -/

/-- A run with none of the four credential variables set. -/
def env0 : Environ := ⟨false, false, false, false⟩

/-- Concrete hub usernames for a sample run. -/
def hub0 : Hub := ⟨"alice", "bob"⟩

/-- A small concrete stand-in for the raw IMDB splits. -/
def raw0 : String → List (String × Nat) := fun s =>
  if s = "train" then
    [("great film", 1), ("dull film", 0), ("loved it", 1), ("hated it", 0), ("fine", 1)]
  else
    [("unseen review", 0)]

/-- A concrete model for instantiating the round-trip theorems. -/
def m0 : CausalLM := ⟨⟨"gpt2", [1, -2, 3]⟩, ⟨⟨["<s>", "movie"]⟩⟩⟩

/-! ## Claims -/

/-- The amended phase ordering that actually holds of a complete run: the
first occurrences of load, instantiation, fit and save are in that order;
the reloads of the locally saved preset all happen after the first save and
before every authentication step and every upload (not last); the first
save precedes the first authentication, which precedes the first upload;
the Kaggle authentication precedes every upload; and every authentication
step is followed by some upload. -/
def amendedOrder (ks : List Nat) : Prop :=
  ks.findIdx (· == 0) < ks.findIdx (· == 1) ∧
  ks.findIdx (· == 1) < ks.findIdx (· == 3) ∧
  ks.findIdx (· == 3) < ks.findIdx (· == 4) ∧
  ks.findIdx (· == 4) < ks.findIdx (· == 2) ∧
  beforeAll (· == 2) (fun k => k == 6 || k == 7) ks ∧
  beforeAll (· == 2) (· == 10) ks ∧
  ks.findIdx (· == 4) < ks.findIdx (fun k => k == 6 || k == 7) ∧
  ks.findIdx (fun k => k == 6 || k == 7) < ks.findIdx (· == 10) ∧
  beforeAll (· == 6) (· == 10) ks ∧
  ∀ j : Fin ks.length, (ks.get j == 6 || ks.get j == 7) = true →
    ∃ k : Fin ks.length, j.val < k.val ∧ ks.get k = 10

instance (ks : List Nat) : Decidable (amendedOrder ks) := by
  unfold amendedOrder
  infer_instance

/-- Claim C1, counterexample: the spec's fixed linear order fails on a
concrete complete run.  The notebook reloads the saved preset via
`from_preset` (cells "Load a Locally Saved Model") between
`save_to_preset` and the uploads, so reloading neither comes last nor
avoids the save-to-upload window. -/
theorem fixed_order_refuted : ¬ fixedLinearOrder ((script env0 hub0).map code) := by
  rw [script_codes]
  decide

/-- Claim C1, amended: the operations first occur in the order load,
instantiate, fit, save, authenticate, upload, but the reloads of the
locally saved preset occur between the save and the authentication steps
(hence between save and upload), rather than last. -/
theorem upload_guide_order (env : Environ) (hub : Hub) :
    amendedOrder ((script env hub).map code) := by
  rw [script_codes]
  decide

theorem upload_guide_order_witness : amendedOrder ((script env0 hub0).map code) :=
  upload_guide_order env0 hub0

/-- The truncation behaviour of the training pipeline: both fit calls
receive data derived from `imdb_train`, which is the train split batched
with size 4 and truncated to its first 100 batches; the test split is
never truncated. -/
def truncationProp (env : Environ) (hub : Hub)
    (raw : String → List (String × Nat)) : Prop :=
  (∀ m d, Event.fit m d ∈ script env hub → d = imdb_train_reviews ∨ d = imdb_train) ∧
  imdb_train = DS.take 100 imdb_train_full ∧
  denote raw imdb_train = (denote raw imdb_train_full).take 100 ∧
  (denote raw imdb_train).length ≤ 100 ∧
  (∀ b ∈ denote raw imdb_train_full, b.length ≤ 4) ∧
  (denote raw imdb_train_full).flatten = (raw "train").map (fun p => Elem.labeled p.1 p.2) ∧
  denote raw imdb_train_reviews = (denote raw imdb_train).map (List.map dropLabel) ∧
  DS.truncated imdb_test = false ∧
  DS.supervised imdb_train = true

/-- Claim C2, counterexample: the dataset actually passed to the causal
LM's fit call is not a labeled sample — the labels are dropped by
`imdb_train.map(lambda x, y: x)` before `causal_lm.fit`. -/
theorem labeled_fit_refuted :
    fitsSupervised (script env0 hub0) = false ∧
    Event.fit "causal_lm" imdb_train_reviews ∈ script env0 hub0 ∧
    DS.supervised imdb_train_reviews = false := by
  refine ⟨rfl, ?_, rfl⟩
  simp [script]

/-- Claim C2, amended: the training data passed to both fit calls derives
from a small labeled sample — the IMDB train split loaded as supervised
pairs with batch size 4 and truncated to exactly its first 100 batches
before any fine-tuning (the classifier receives it with labels, the causal
LM with labels dropped) — and the test split is never truncated. -/
theorem train_truncation (env : Environ) (hub : Hub)
    (raw : String → List (String × Nat)) : truncationProp env hub raw := by
  refine ⟨?_, rfl, rfl, ?_, ?_, ?_, rfl, rfl, rfl⟩
  · intro m d h
    simp [script] at h
    rcases h with ⟨_, h⟩ | ⟨_, h⟩
    · exact Or.inl h
    · exact Or.inr h
  · exact List.length_take_le 100 _
  · intro b hb
    exact chunk_mem_length 4 (by omega) _ b hb
  · exact chunk_flatten 4 _

theorem train_truncation_witness : truncationProp env0 hub0 raw0 :=
  train_truncation env0 hub0 raw0

/-- Interactive login happens exactly when the hub's credential variables
are incomplete, and never when both are present. -/
def loginGuard (env : Environ) (hub : Hub) : Prop :=
  (Event.kaggleAuth true ∈ script env hub ↔
    (env.kaggleUsername = false ∨ env.kaggleKey = false)) ∧
  (Event.hfAuth true ∈ script env hub ↔
    (env.hfUsername = false ∨ env.hfToken = false)) ∧
  (Event.kaggleAuth false ∈ script env hub ↔
    (env.kaggleUsername = true ∧ env.kaggleKey = true)) ∧
  (Event.hfAuth false ∈ script env hub ↔
    (env.hfUsername = true ∧ env.hfToken = true))

/-- Claim C3: `kagglehub.login()` is invoked exactly when `KAGGLE_USERNAME`
or `KAGGLE_KEY` is absent from the environment, and
`huggingface_hub.notebook_login()` exactly when `HF_USERNAME` or `HF_TOKEN`
is absent; with complete credentials no interactive login occurs. -/
theorem interactive_login_guard (env : Environ) (hub : Hub) : loginGuard env hub := by
  rcases env with ⟨a, b, c, d⟩
  cases a <;> cases b <;> cases c <;> cases d <;> simp [loginGuard, script]

theorem interactive_login_guard_witness : loginGuard env0 hub0 :=
  interactive_login_guard env0 hub0

/-- Every upload uses the URI scheme of the hub it addresses, and a URI
carrying one hub's scheme never carries the other's. -/
def schemeProp (env : Environ) (hub : Hub) : Prop :=
  ∀ u d, Event.uploadPreset u d ∈ script env hub →
    (((u = kaggle_uri hub.kaggleUser ∧ d = preset_dir) ∨
       (u = bert_kaggle_uri hub.kaggleUser ∧ d = bert_preset_dir)) ∧
      (∃ r, u = "kaggle://" ++ r) ∧ ¬(∃ r, u = "hf://" ++ r)) ∨
    ((u = hf_uri hub.hfUser ∧ d = preset_dir) ∧
      (∃ r, u = "hf://" ++ r) ∧ ¬(∃ r, u = "kaggle://" ++ r))

/-- Claim C4: the two Kaggle uploads use URIs starting with `kaggle://`,
the Hugging Face upload uses a URI starting with `hf://`, and no upload's
URI starts with the other hub's scheme. -/
theorem upload_scheme (env : Environ) (hub : Hub) : schemeProp env hub := by
  intro u d h
  simp [script] at h
  rcases h with ⟨hu, hd⟩ | ⟨hu, hd⟩ | ⟨hu, hd⟩
  · subst hu; subst hd
    refine Or.inl ⟨Or.inl ⟨rfl, rfl⟩, ⟨_, rfl⟩, ?_⟩
    rintro ⟨r, hr⟩
    exact kaggle_ne_hf _ r hr
  · subst hu; subst hd
    refine Or.inr ⟨⟨rfl, rfl⟩, ⟨_, rfl⟩, ?_⟩
    rintro ⟨r, hr⟩
    exact hf_ne_kaggle _ r hr
  · subst hu; subst hd
    refine Or.inl ⟨Or.inr ⟨rfl, rfl⟩, ⟨_, rfl⟩, ?_⟩
    rintro ⟨r, hr⟩
    exact kaggle_ne_hf _ r hr

theorem upload_scheme_witness : schemeProp env0 hub0 :=
  upload_scheme env0 hub0

/-- Every upload's URI embeds the username the corresponding hub's
`whoami` returned, and its directory argument was produced by an earlier
`save_to_preset` in the same run. -/
def uploadSourceProp (env : Environ) (hub : Hub) : Prop :=
  (∀ w, Event.kaggleWhoami w ∈ script env hub → w = hub.kaggleUser) ∧
  (∀ w, Event.hfWhoami w ∈ script env hub → w = hub.hfUser) ∧
  (∀ u d, Event.uploadPreset u d ∈ script env hub →
    (∃ p, u = "kaggle://" ++ (hub.kaggleUser ++ p)) ∨
    (∃ p, u = "hf://" ++ (hub.hfUser ++ p))) ∧
  uploadsSaved (script env hub) [] = true

/-- Claim C5: each `upload_preset` call receives a URI whose user
component is the username returned by the corresponding hub's `whoami`,
and a directory previously written by `save_to_preset`. -/
theorem upload_destination (env : Environ) (hub : Hub) : uploadSourceProp env hub := by
  refine ⟨?_, ?_, ?_, rfl⟩
  · intro w h
    simp [script] at h
    exact h
  · intro w h
    simp [script] at h
    exact h
  · intro u d h
    simp [script] at h
    rcases h with ⟨hu, _⟩ | ⟨hu, _⟩ | ⟨hu, _⟩
    · exact Or.inl ⟨_, hu⟩
    · exact Or.inr ⟨_, hu⟩
    · exact Or.inl ⟨_, hu⟩

theorem upload_destination_witness : uploadSourceProp env0 hub0 :=
  upload_destination env0 hub0

/-- Claim C6, counterexample: a single complete run performs the
authentication step of both hubs, not of exactly one. -/
theorem single_auth_refuted :
    authHubs (script env0 hub0) = 2 ∧ authHubs (script env0 hub0) ≠ 1 := by
  refine ⟨rfl, ?_⟩
  decide

/-- Both hubs are authenticated in one run, each before the upload(s) to
that hub. -/
def bothAuthProp (env : Environ) (hub : Hub) : Prop :=
  authHubs (script env hub) = 2 ∧
  (∃ t1 t2, script env hub =
      t1 ++ Event.uploadPreset (kaggle_uri hub.kaggleUser) preset_dir :: t2 ∧
    Event.kaggleAuth (!env.kaggleUsername || !env.kaggleKey) ∈ t1) ∧
  (∃ t1 t2, script env hub =
      t1 ++ Event.uploadPreset (hf_uri hub.hfUser) preset_dir :: t2 ∧
    Event.hfAuth (!env.hfUsername || !env.hfToken) ∈ t1 ∧
    Event.kaggleAuth (!env.kaggleUsername || !env.kaggleKey) ∈ t1) ∧
  (∃ t1 t2, script env hub =
      t1 ++ Event.uploadPreset (bert_kaggle_uri hub.kaggleUser) bert_preset_dir :: t2 ∧
    Event.kaggleAuth (!env.kaggleUsername || !env.kaggleKey) ∈ t1 ∧
    Event.hfAuth (!env.hfUsername || !env.hfToken) ∈ t1)

/-- Claim C6, amended: a single complete run authenticates against both
hub services — the Kaggle authentication step precedes the Kaggle uploads
and the Hugging Face authentication step precedes the Hugging Face
upload. -/
theorem both_hubs_authenticated (env : Environ) (hub : Hub) : bothAuthProp env hub := by
  refine ⟨rfl, ?_, ?_, ?_⟩
  · exact ⟨[ .loadDataset "imdb_reviews" ["train", "test"] true 4,
      .fromPreset "CausalLM" "gpt2_base_en" none,
      .fit "causal_lm" imdb_train_reviews,
      .saveToPreset "causal_lm" preset_dir,
      .listDir preset_dir,
      .fromPreset "CausalLM" preset_dir none,
      .fromPreset "Backbone" preset_dir none,
      .fromPreset "Tokenizer" preset_dir none,
      .kaggleAuth (!env.kaggleUsername || !env.kaggleKey),
      .kaggleWhoami hub.kaggleUser], _, rfl, by simp⟩
  · exact ⟨[ .loadDataset "imdb_reviews" ["train", "test"] true 4,
      .fromPreset "CausalLM" "gpt2_base_en" none,
      .fit "causal_lm" imdb_train_reviews,
      .saveToPreset "causal_lm" preset_dir,
      .listDir preset_dir,
      .fromPreset "CausalLM" preset_dir none,
      .fromPreset "Backbone" preset_dir none,
      .fromPreset "Tokenizer" preset_dir none,
      .kaggleAuth (!env.kaggleUsername || !env.kaggleKey),
      .kaggleWhoami hub.kaggleUser,
      .uploadPreset (kaggle_uri hub.kaggleUser) preset_dir,
      .hfAuth (!env.hfUsername || !env.hfToken),
      .hfWhoami hub.hfUser], _, rfl, by simp, by simp⟩
  · exact ⟨[ .loadDataset "imdb_reviews" ["train", "test"] true 4,
      .fromPreset "CausalLM" "gpt2_base_en" none,
      .fit "causal_lm" imdb_train_reviews,
      .saveToPreset "causal_lm" preset_dir,
      .listDir preset_dir,
      .fromPreset "CausalLM" preset_dir none,
      .fromPreset "Backbone" preset_dir none,
      .fromPreset "Tokenizer" preset_dir none,
      .kaggleAuth (!env.kaggleUsername || !env.kaggleKey),
      .kaggleWhoami hub.kaggleUser,
      .uploadPreset (kaggle_uri hub.kaggleUser) preset_dir,
      .hfAuth (!env.hfUsername || !env.hfToken),
      .hfWhoami hub.hfUser,
      .uploadPreset (hf_uri hub.hfUser) preset_dir,
      .fromPreset "Classifier" "bert_tiny_en_uncased" (some 2),
      .fit "classifier" imdb_train,
      .saveToPreset "classifier" bert_preset_dir], [], rfl, by simp, by simp⟩

theorem both_hubs_authenticated_witness : bothAuthProp env0 hub0 :=
  both_hubs_authenticated env0 hub0

/-- Errors from any call propagate unchanged and stop the run; when no
call fails, every call in the trace runs. -/
def errorPropagationProp (ε : Type) (env : Environ) (hub : Hub)
    (f : Event → Except ε Unit) : Prop :=
  (∀ (t1 : List Event) (e : Event) (t2 : List Event) (err : ε),
    script env hub = t1 ++ e :: t2 →
    (∀ x ∈ t1, f x = .ok ()) →
    f e = .error err →
    runWith f (script env hub) = (t1, some err)) ∧
  ((∀ x ∈ script env hub, f x = .ok ()) →
    runWith f (script env hub) = (script env hub, none))

/-- Claim C7: the notebook defines no error handling — whichever call
first raises, its error surfaces unchanged, exactly the preceding calls
have run, and no alternative control path is taken; if no call raises,
the whole fixed sequence runs. -/
theorem error_propagation (ε : Type) (env : Environ) (hub : Hub)
    (f : Event → Except ε Unit) : errorPropagationProp ε env hub f := by
  constructor
  · intro t1 e t2 err hsplit h1 h2
    rw [hsplit]
    exact runWith_error_at f err t1 e t2 h1 h2
  · intro h
    exact runWith_all_ok f _ h

theorem error_propagation_witness :
    runWith (fun _ => (Except.error "boom" : Except String Unit)) (script env0 hub0) =
      ([], some "boom") ∧
    runWith (fun _ => (Except.ok () : Except String Unit)) (script env0 hub0) =
      (script env0 hub0, none) := by
  constructor
  · exact (error_propagation String env0 hub0 (fun _ => Except.error "boom")).1
      [] (.loadDataset "imdb_reviews" ["train", "test"] true 4)
      ((script env0 hub0).drop 1) "boom" rfl
      (fun x hx => absurd hx (List.not_mem_nil x)) rfl
  · exact (error_propagation String env0 hub0 (fun _ => Except.ok ())).2
      (fun x _ => rfl)

/-- Claim C8: the preset save/load round-trip — loading a saved preset
returns a model with the same configuration and weights: what you save in
is what you get back out. -/
theorem preset_round_trip (m : CausalLM) :
    CausalLM.from_preset (save_to_preset m) = m := rfl

theorem preset_round_trip_witness : CausalLM.from_preset (save_to_preset m0) = m0 :=
  preset_round_trip m0

/-- Claim C9: loading a sub-component from a task's saved preset agrees
with accessing that sub-component on the task. -/
theorem component_round_trip (m : CausalLM) :
    Backbone.from_preset (save_to_preset m) = m.backbone ∧
    Tokenizer.from_preset (save_to_preset m) = m.preprocessor.tokenizer :=
  ⟨rfl, rfl⟩

theorem component_round_trip_witness :
    Backbone.from_preset (save_to_preset m0) = m0.backbone ∧
    Tokenizer.from_preset (save_to_preset m0) = m0.preprocessor.tokenizer :=
  component_round_trip m0

/-- The two fit calls receive differently shaped data: the causal LM only
the review texts (labels dropped), the classifier the labeled pairs of the
same truncated training set. -/
def fitShapesProp (env : Environ) (hub : Hub)
    (raw : String → List (String × Nat)) : Prop :=
  Event.fit "causal_lm" imdb_train_reviews ∈ script env hub ∧
  Event.fit "classifier" imdb_train ∈ script env hub ∧
  (∀ m d, Event.fit m d ∈ script env hub →
    (m = "causal_lm" ∧ d = imdb_train_reviews) ∨ (m = "classifier" ∧ d = imdb_train)) ∧
  imdb_train_reviews = DS.mapFst imdb_train ∧
  denote raw imdb_train_reviews = (denote raw imdb_train).map (List.map dropLabel) ∧
  (∀ b ∈ denote raw imdb_train_reviews, ∀ e ∈ b, ∃ t, e = Elem.plain t) ∧
  DS.supervised imdb_train = true ∧
  DS.supervised imdb_train_reviews = false

/-- Claim C10: the causal LM's fit receives only the review texts — every
(text, label) pair of the truncated training set mapped to its text —
while the classifier's fit receives the full labeled pairs of the same
truncated training set. -/
theorem fit_data_shapes (env : Environ) (hub : Hub)
    (raw : String → List (String × Nat)) : fitShapesProp env hub raw := by
  refine ⟨by simp [script], by simp [script], ?_, rfl, rfl, ?_, rfl, rfl⟩
  · intro m d h
    simp [script] at h
    rcases h with ⟨hm, hd⟩ | ⟨hm, hd⟩
    · exact Or.inl ⟨hm, hd⟩
    · exact Or.inr ⟨hm, hd⟩
  · intro b hb e he
    have hb' : b ∈ (denote raw imdb_train).map (List.map dropLabel) := hb
    rcases List.mem_map.1 hb' with ⟨b0, _, rfl⟩
    rcases List.mem_map.1 he with ⟨x, _, rfl⟩
    cases x with
    | labeled t l => exact ⟨t, rfl⟩
    | plain t => exact ⟨t, rfl⟩

theorem fit_data_shapes_witness : fitShapesProp env0 hub0 raw0 :=
  fit_data_shapes env0 hub0 raw0
